import Mathlib

/-!
Verification of the SQL security-policy core of the Kingbase-mcp repository
(`src/database.py`): the statement classifier (`SQLValidator`), the mediated
execution paths (`execute_query`, `execute_safe_query`), and the schema gate
(`_is_schema_allowed`, `get_all_tables`).

Statements are embedded as lists of characters (`Str`).  Python's
`str.upper`/`str.strip`/`str.split` are modelled character-wise over the
ASCII range (the repository's keyword tables and patterns are all ASCII).
Python's `re.search` for the seven fixed dangerous-clause patterns is
embedded by a deterministic greedy token matcher, which coincides with the
regex semantics for these patterns because every `\s+` or `\w+` item is
followed by an item that can never consume a character of the same class.
-/

/-- Statement text: a list of characters. -/
abbrev Str := List Char

/-- Character list of a Lean string literal. -/
def cs (s : String) : Str := s.data

/-- Whitespace test used for `strip`/`split` (Python `str` whitespace, ASCII range). -/
def isSpaceChar (c : Char) : Bool := c.isWhitespace

/-- Word character for the regex `\b` and `\w` classes (ASCII `[A-Za-z0-9_]`). -/
def isWordChar (c : Char) : Bool := c.isAlphanum || c == '_'

/-- Python `str.upper`, character-wise (ASCII range). -/
def upperStr (s : Str) : Str := s.map Char.toUpper

/-- Drop leading whitespace. -/
def dropSpaces (s : Str) : Str := s.dropWhile isSpaceChar

/-- Python `str.strip`: remove leading and trailing whitespace. -/
def stripStr (s : Str) : Str :=
  (((s.dropWhile isSpaceChar).reverse).dropWhile isSpaceChar).reverse

/-- `sql.upper().strip()` from `SQLValidator.validate_sql` (database.py line 42). -/
def normalizeSql (s : Str) : Str := stripStr (upperStr s)

/-- Longest leading run of non-whitespace characters. -/
def takeToken (s : Str) : Str := s.takeWhile (fun c => !isSpaceChar c)

/-- `SQLValidator._extract_first_keyword` (database.py lines 56-60):
`sql_upper.split()[0]` when a word exists, else the empty string. -/
def firstKeyword (s : Str) : Str := takeToken (dropSpaces s)

/-- `SQLValidator.READONLY_OPERATIONS` (database.py lines 25-27). -/
def readonlyOperations : List Str :=
  [cs "SELECT", cs "WITH", cs "SHOW", cs "DESCRIBE", cs "EXPLAIN", cs "ANALYZE"]

/-- `SQLValidator.WRITE_OPERATIONS` (database.py lines 30-32). -/
def writeOperations : List Str := [cs "INSERT", cs "UPDATE"]

/-- `SQLValidator.DANGEROUS_OPERATIONS` (database.py lines 35-37). -/
def dangerousOperations : List Str :=
  [cs "DELETE", cs "DROP", cs "CREATE", cs "ALTER", cs "TRUNCATE", cs "GRANT", cs "REVOKE"]

/-- `litAt n h`: `n` is a leading run of `h`. -/
def litAt : Str → Str → Bool
  | [], _ => true
  | _ :: _, [] => false
  | a :: as, b :: bs => a == b && litAt as bs

/-- Python substring containment `needle in haystack`. -/
def occursIn (needle : Str) : Str → Bool
  | [] => litAt needle []
  | c :: rest => litAt needle (c :: rest) || occursIn needle rest

/-- One item of a dangerous-clause pattern: a literal word, `\s+`, or `\w+`. -/
inductive PatTok : Type
  | lit : Str → PatTok
  | ws : PatTok
  | wordrun : PatTok

/-- Consume a literal. -/
def eatLit : Str → Str → Option Str
  | [], s => some s
  | _ :: _, [] => none
  | a :: as, b :: bs => if a == b then eatLit as bs else none

/-- Consume `\s+` (greedy; exact for the seven patterns, see the header note). -/
def eatWs : Str → Option Str
  | [] => none
  | c :: rest => if isSpaceChar c then some (rest.dropWhile isSpaceChar) else none

/-- Consume `\w+` (greedy; exact for the seven patterns, see the header note). -/
def eatWordRun : Str → Option Str
  | [] => none
  | c :: rest => if isWordChar c then some (rest.dropWhile isWordChar) else none

/-- Consume a sequence of pattern items. -/
def eatToks : List PatTok → Str → Option Str
  | [], s => some s
  | PatTok.lit w :: ts, s =>
    match eatLit w s with
    | none => none
    | some r => eatToks ts r
  | PatTok.ws :: ts, s =>
    match eatWs s with
    | none => none
    | some r => eatToks ts r
  | PatTok.wordrun :: ts, s =>
    match eatWordRun s with
    | none => none
    | some r => eatToks ts r

/-- The trailing `\b`: the remaining text starts with a non-word character or ends. -/
def nonWordHead : Str → Bool
  | [] => true
  | c :: _ => !isWordChar c

/-- The leading `\b`: the previous character (if any) is a non-word character. -/
def boundaryOk : Option Char → Bool
  | none => true
  | some c => !isWordChar c

/-- Match a `\b ... \b` pattern at one position (`prev` = character before it). -/
def matchAt (p : List PatTok) (prev : Option Char) (s : Str) : Bool :=
  boundaryOk prev &&
    (match eatToks p s with
     | none => false
     | some rest => nonWordHead rest)

/-- Try every position from here to the end of the text. -/
def searchFrom (p : List PatTok) : Option Char → Str → Bool
  | prev, [] => matchAt p prev []
  | prev, c :: rest => matchAt p prev (c :: rest) || searchFrom p (some c) rest

/-- Python `re.search(pattern, s) is not None` for the fixed patterns. -/
def reSearch (p : List PatTok) (s : Str) : Bool := searchFrom p none s

/-- Pattern `\bDROP\s+TABLE\b` (database.py line 72). -/
def patDropTable : List PatTok := [PatTok.lit (cs "DROP"), PatTok.ws, PatTok.lit (cs "TABLE")]

/-- Pattern `\bTRUNCATE\s+TABLE\b` (database.py line 73). -/
def patTruncateTable : List PatTok := [PatTok.lit (cs "TRUNCATE"), PatTok.ws, PatTok.lit (cs "TABLE")]

/-- Pattern `\bDELETE\s+FROM\b` (database.py line 74). -/
def patDeleteFrom : List PatTok := [PatTok.lit (cs "DELETE"), PatTok.ws, PatTok.lit (cs "FROM")]

/-- Pattern `\bINSERT\s+INTO\b` (database.py line 75). -/
def patInsertInto : List PatTok := [PatTok.lit (cs "INSERT"), PatTok.ws, PatTok.lit (cs "INTO")]

/-- Pattern `\bUPDATE\s+\w+\s+SET\b` (database.py line 76). -/
def patUpdateSet : List PatTok :=
  [PatTok.lit (cs "UPDATE"), PatTok.ws, PatTok.wordrun, PatTok.ws, PatTok.lit (cs "SET")]

/-- Pattern `\bCREATE\s+TABLE\b` (database.py line 77). -/
def patCreateTable : List PatTok := [PatTok.lit (cs "CREATE"), PatTok.ws, PatTok.lit (cs "TABLE")]

/-- Pattern `\bALTER\s+TABLE\b` (database.py line 78). -/
def patAlterTable : List PatTok := [PatTok.lit (cs "ALTER"), PatTok.ws, PatTok.lit (cs "TABLE")]

/-- `dangerous_patterns` of `_validate_readonly` (database.py lines 71-79). -/
def dangerousSelectPatterns : List (List PatTok) :=
  [patDropTable, patTruncateTable, patDeleteFrom, patInsertInto, patUpdateSet,
   patCreateTable, patAlterTable]

/-- `SQLValidator._validate_readonly` (database.py lines 62-92). -/
def validateReadonly (kw u : Str) : Bool :=
  if kw ∈ readonlyOperations then
    if kw = cs "SELECT" then
      !(dangerousSelectPatterns.any (fun p => reSearch p u))
    else
      !((writeOperations ++ dangerousOperations).any (fun w => occursIn w u))
  else false

/-- `SQLValidator._validate_limited_write` (database.py lines 94-107). -/
def validateLimitedWrite (kw u : Str) : Bool :=
  if kw ∈ readonlyOperations ++ writeOperations then
    !(dangerousOperations.any (fun w => occursIn w u))
  else false

/-- Modelled from the spec: the `SecurityMode` enumeration lives in `config.py`,
which is not among the provided source files; the spec fixes its three values
`READONLY`, `LIMITED_WRITE`, `FULL_ACCESS`, and `database.py` branches on
exactly these three members. -/
inductive SecurityMode : Type
  | readonly
  | limitedWrite
  | fullAccess
deriving DecidableEq

/-- `SQLValidator.validate_sql` (database.py lines 39-54). -/
def validateSql (sql : Str) : SecurityMode → Bool
  | SecurityMode.readonly =>
    validateReadonly (firstKeyword (normalizeSql sql)) (normalizeSql sql)
  | SecurityMode.limitedWrite =>
    validateLimitedWrite (firstKeyword (normalizeSql sql)) (normalizeSql sql)
  | SecurityMode.fullAccess => true

/-- `SQLValidator.get_error_message` (database.py lines 109-129). -/
def getErrorMessage (sql : Str) : SecurityMode → Str
  | SecurityMode.readonly =>
    if firstKeyword (normalizeSql sql) ∈ writeOperations then
      cs "只读模式下禁止写入操作: " ++ firstKeyword (normalizeSql sql)
    else if firstKeyword (normalizeSql sql) ∈ dangerousOperations then
      cs "只读模式下禁止危险操作: " ++ firstKeyword (normalizeSql sql)
    else
      cs "只读模式下不支持的操作: " ++ firstKeyword (normalizeSql sql)
  | SecurityMode.limitedWrite =>
    if firstKeyword (normalizeSql sql) ∈ dangerousOperations then
      cs "限制写入模式下禁止危险操作: " ++ firstKeyword (normalizeSql sql)
    else
      cs "限制写入模式下不支持的操作: " ++ firstKeyword (normalizeSql sql)
  | SecurityMode.fullAccess => cs "操作被安全策略禁止"

/-- A database value (abstract: the claims never inspect value contents). -/
inductive Value : Type
  | intV : Int → Value
  | strV : Str → Value
  | nullV : Value
deriving DecidableEq

/-- One result row: an ordered field-name/value mapping (`RealDictCursor` row). -/
abbrev Row := List (Str × Value)

/-- Errors raised by the mediated execution paths.  In the Python source all
policy denials are `ValueError`s distinguished by message; constructors follow
the spec's taxonomy and carry the source's message text. -/
inductive QueryError : Type
  | policyViolation : Str → QueryError
  | safeQueryViolation : Str → QueryError
  | schemaNotAllowed : Str → QueryError
  | connectionFailed : Str → QueryError
  | executionFailed : Str → QueryError
deriving DecidableEq

/-- Outcome of one mediated call, plus whether a database connection was
opened and whether the statement reached `cursor.execute`. -/
structure ExecResult : Type where
  outcome : Except QueryError (List Row)
  connOpened : Bool
  executed : Bool

/-- Modelled from the spec: the `SchemaAccessPolicy` shapes are determined by
`config.py` (`is_all_schemas_allowed`, `is_auto_discover_schemas`,
`allowed_schemas`), which is not among the provided source files; the spec
fixes three mutually exclusive shapes: allow-all, auto-discover, allow-list. -/
inductive SchemaPolicy : Type
  | allowAll
  | autoDiscover
  | allowList : List Str → SchemaPolicy
deriving DecidableEq

/-- Modelled from the spec: the configuration object produced by `config.py`
(not among the provided source files) — the fields of it that `database.py`
reads: active security mode, row ceiling, schema policy, query-log toggle. -/
structure Config : Type where
  securityMode : SecurityMode
  maxResultRows : Nat
  schemaPolicy : SchemaPolicy
  enableQueryLog : Bool

/-- Behaviour of the external database for one call: whether connecting
succeeds, and for each (statement, parameters) pair either an execution error
or the fetched rows together with the cursor's affected-row count. -/
structure DbBehavior : Type where
  connectOk : Bool
  exec : Str → Option (List Value) → Except Str (List Row × Int)

/-- The retrieval prefixes of `execute_query` line 191:
`sql.upper().strip().startswith(('SELECT', 'WITH', 'SHOW', 'DESCRIBE', 'EXPLAIN'))`. -/
def retrievalStarts : List Str :=
  [cs "SELECT", cs "WITH", cs "SHOW", cs "DESCRIBE", cs "EXPLAIN"]

/-- The branch test of database.py line 191: a *text-prefix* test on the
normalized statement (Python `startswith` on a tuple), not a whole-token test. -/
def startsWithRetrieval (u : Str) : Bool := retrievalStarts.any (fun w => litAt w u)

/-- The single status record `{"affected_rows": n, "status": "success"}`
returned for non-retrieval statements (database.py line 206). -/
def statusRow (n : Int) : Row :=
  [(cs "affected_rows", Value.intV n), (cs "status", Value.strV (cs "success"))]

/-- `KingbaseDatabase.execute_query` (database.py lines 174-210): validate
under the configured mode (raising `ValueError` with `get_error_message`
before any connection is opened), open the connection, execute, and branch on
the retrieval-prefix test: fetch-and-truncate for retrieval text, else commit
and return the affected-row status record. -/
def executeQuery (cfg : Config) (db : DbBehavior) (sql : Str)
    (params : Option (List Value)) : ExecResult :=
  if validateSql sql cfg.securityMode then
    if db.connectOk then
      match db.exec sql params with
      | Except.error e =>
        { outcome := Except.error (QueryError.executionFailed e),
          connOpened := true, executed := true }
      | Except.ok (rows, rowcount) =>
        if startsWithRetrieval (normalizeSql sql) then
          { outcome := Except.ok
              (if rows.length > cfg.maxResultRows then rows.take cfg.maxResultRows else rows),
            connOpened := true, executed := true }
        else
          { outcome := Except.ok [statusRow rowcount],
            connOpened := true, executed := true }
    else
      { outcome := Except.error (QueryError.connectionFailed (cs "数据库连接错误")),
        connOpened := false, executed := false }
  else
    { outcome := Except.error (QueryError.policyViolation
        (cs "SQL操作被安全策略禁止: " ++ getErrorMessage sql cfg.securityMode)),
      connOpened := false, executed := false }

/-- `KingbaseDatabase.execute_safe_query` (database.py lines 212-218): force a
`READONLY` validation, then delegate to `execute_query` (which re-validates
under the configured mode). -/
def executeSafeQuery (cfg : Config) (db : DbBehavior) (sql : Str)
    (params : Option (List Value)) : ExecResult :=
  if validateSql sql SecurityMode.readonly then
    executeQuery cfg db sql params
  else
    { outcome := Except.error (QueryError.safeQueryViolation (cs "系统查询必须是只读操作")),
      connOpened := false, executed := false }

/-- The schema-existence probe of `_is_schema_allowed` (database.py lines 252-256). -/
def schemaProbeSql : Str :=
  cs "\n                SELECT schema_name \n                FROM information_schema.schemata \n                WHERE schema_name = %s;\n                "

/-- `KingbaseDatabase._is_schema_allowed` (database.py lines 242-263). -/
def isSchemaAllowed (cfg : Config) (db : DbBehavior) (schema : Str) : Bool :=
  match cfg.schemaPolicy with
  | SchemaPolicy.allowAll => true
  | SchemaPolicy.autoDiscover =>
    match (executeSafeQuery cfg db schemaProbeSql (some [Value.strV schema])).outcome with
    | Except.ok rows => decide (rows.length > 0)
    | Except.error _ => false
  | SchemaPolicy.allowList schemas => decide (schema ∈ schemas)

/-- Modelled from the spec: the display rendering of the explicit allow-list
(Python `str(self.config.allowed_schemas)`, database.py line 272, whose
collection type is fixed in the absent `config.py`); rendered in Python list
style. -/
def renderItems : List Str → Str
  | [] => []
  | [s] => '\'' :: (s ++ [ '\'' ])
  | s :: rest => '\'' :: (s ++ ('\'' :: ',' :: ' ' :: renderItems rest))

/-- Modelled from the spec: Python-list-style rendering of the allow-list. -/
def renderSchemaSet (schemas : List Str) : Str := '[' :: (renderItems schemas ++ [']'])

/-- `KingbaseDatabase._get_allowed_schemas_display` (database.py lines 265-272). -/
def allowedSchemasDisplay (cfg : Config) : Str :=
  match cfg.schemaPolicy with
  | SchemaPolicy.allowAll => cs "所有模式(*)"
  | SchemaPolicy.autoDiscover => cs "自动发现(auto)"
  | SchemaPolicy.allowList schemas => renderSchemaSet schemas

/-- The `pg_tables` query of `get_all_tables` (database.py lines 227-239). -/
def getAllTablesSql : Str :=
  cs "\n        SELECT \n            schemaname,\n            tablename,\n            tableowner,\n            hasindexes,\n            hasrules,\n            hastriggers,\n            rowsecurity\n        FROM pg_tables \n        WHERE schemaname = %s\n        ORDER BY tablename;\n        "

/-- `KingbaseDatabase.get_all_tables` (database.py lines 220-240): gate the
requested schema, raising `ValueError` with the policy display on denial,
else run the catalog query through the safe path. -/
def getAllTables (cfg : Config) (db : DbBehavior) (schema : Str) : ExecResult :=
  if isSchemaAllowed cfg db schema then
    executeSafeQuery cfg db getAllTablesSql (some [Value.strV schema])
  else
    { outcome := Except.error (QueryError.schemaNotAllowed
        (cs "不允许访问模式: " ++ schema ++ cs "，允许的模式: " ++ allowedSchemasDisplay cfg)),
      connOpened := false, executed := false }

/-- A database stub for concrete witnesses: connects, returns no rows. -/
def dbStub : DbBehavior := { connectOk := true, exec := fun _ _ => Except.ok ([], 0) }

/-- A database stub returning three (empty) rows with rowcount 0. -/
def dbThreeRows : DbBehavior :=
  { connectOk := true, exec := fun _ _ => Except.ok ([[], [], []], 0) }

/-- A database stub returning one (empty) row with rowcount 7. -/
def dbOneRow : DbBehavior :=
  { connectOk := true, exec := fun _ _ => Except.ok ([[]], 7) }

/-- A `FULL_ACCESS` configuration for concrete witnesses. -/
def cfgFull : Config :=
  { securityMode := SecurityMode.fullAccess, maxResultRows := 100,
    schemaPolicy := SchemaPolicy.allowAll, enableQueryLog := false }

/-- A `READONLY` configuration for concrete witnesses. -/
def cfgReadonly : Config :=
  { securityMode := SecurityMode.readonly, maxResultRows := 100,
    schemaPolicy := SchemaPolicy.allowList [cs "public"], enableQueryLog := false }

/-- A `LIMITED_WRITE` configuration for concrete witnesses. -/
def cfgLimited : Config :=
  { securityMode := SecurityMode.limitedWrite, maxResultRows := 100,
    schemaPolicy := SchemaPolicy.allowAll, enableQueryLog := false }

/-- A configuration with a row ceiling of 2 for the truncation witness. -/
def cfgCeiling : Config :=
  { securityMode := SecurityMode.readonly, maxResultRows := 2,
    schemaPolicy := SchemaPolicy.allowAll, enableQueryLog := false }

theorem validateReadonly_of_not_mem (kw u : Str) (h : kw ∉ readonlyOperations) :
    validateReadonly kw u = false := by
  simp [validateReadonly, h]

theorem validateLimitedWrite_of_not_mem (kw u : Str)
    (h : kw ∉ readonlyOperations ++ writeOperations) :
    validateLimitedWrite kw u = false := by
  simp [validateLimitedWrite, h]

theorem dangerous_not_allowed :
    ∀ kw ∈ dangerousOperations,
      kw ∉ readonlyOperations ∧ kw ∉ readonlyOperations ++ writeOperations := by decide

theorem writeDangerous_not_readonly :
    ∀ kw ∈ writeOperations ++ dangerousOperations, kw ∉ readonlyOperations := by decide

/-- Claim C1: a statement whose leading keyword is a dangerous operation is
denied by `validate_sql` under `READONLY` and `LIMITED_WRITE` and permitted
under `FULL_ACCESS`. -/
theorem claim_c1 (sql : Str)
    (h : firstKeyword (normalizeSql sql) ∈ dangerousOperations) :
    validateSql sql SecurityMode.readonly = false ∧
    validateSql sql SecurityMode.limitedWrite = false ∧
    validateSql sql SecurityMode.fullAccess = true := by
  obtain ⟨h1, h2⟩ := dangerous_not_allowed _ h
  exact ⟨validateReadonly_of_not_mem _ _ h1, validateLimitedWrite_of_not_mem _ _ h2, rfl⟩

/-- Witness for C1 at the concrete statement `DROP TABLE t`. -/
theorem claim_c1_witness :
    firstKeyword (normalizeSql (cs "DROP TABLE t")) ∈ dangerousOperations ∧
    (validateSql (cs "DROP TABLE t") SecurityMode.readonly = false ∧
     validateSql (cs "DROP TABLE t") SecurityMode.limitedWrite = false ∧
     validateSql (cs "DROP TABLE t") SecurityMode.fullAccess = true) :=
  ⟨by decide, claim_c1 (cs "DROP TABLE t") (by decide)⟩

/-- Claim C3: under `LIMITED_WRITE`, `validate_sql` permits a statement iff
its leading keyword is in `READONLY_OP ∪ WRITE_OP` and no dangerous keyword
occurs anywhere in the normalized text as a substring; `UPDATE t SET c = 1`
is permitted and `DROP TABLE t` is denied. -/
theorem claim_c3 (sql : Str) :
    (validateSql sql SecurityMode.limitedWrite = true ↔
      (firstKeyword (normalizeSql sql) ∈ readonlyOperations ++ writeOperations ∧
       dangerousOperations.any (fun w => occursIn w (normalizeSql sql)) = false)) ∧
    validateSql (cs "UPDATE t SET c = 1") SecurityMode.limitedWrite = true ∧
    validateSql (cs "DROP TABLE t") SecurityMode.limitedWrite = false := by
  refine ⟨?_, by decide, by decide⟩
  show validateLimitedWrite (firstKeyword (normalizeSql sql)) (normalizeSql sql) = true ↔ _
  by_cases h : firstKeyword (normalizeSql sql) ∈ readonlyOperations ++ writeOperations
  · simp [validateLimitedWrite, h]
  · simp [validateLimitedWrite, h]

/-- Claim C8 (amended): a statement whose normalized text is empty has the
empty leading keyword and is denied under `READONLY` and `LIMITED_WRITE`;
under `FULL_ACCESS`, however, `validate_sql` permits it (the code returns
`True` unconditionally in that mode). -/
theorem claim_c8 (sql : Str) (h : normalizeSql sql = []) :
    firstKeyword (normalizeSql sql) = [] ∧
    validateSql sql SecurityMode.readonly = false ∧
    validateSql sql SecurityMode.limitedWrite = false ∧
    validateSql sql SecurityMode.fullAccess = true := by
  refine ⟨by rw [h]; rfl, ?_, ?_, rfl⟩
  · show validateReadonly (firstKeyword (normalizeSql sql)) (normalizeSql sql) = false
    rw [h]; decide
  · show validateLimitedWrite (firstKeyword (normalizeSql sql)) (normalizeSql sql) = false
    rw [h]; decide

/-- Witness for C8 at the whitespace-only statement. -/
theorem claim_c8_witness :
    normalizeSql (cs "   ") = [] ∧
    (firstKeyword (normalizeSql (cs "   ")) = [] ∧
     validateSql (cs "   ") SecurityMode.readonly = false ∧
     validateSql (cs "   ") SecurityMode.limitedWrite = false ∧
     validateSql (cs "   ") SecurityMode.fullAccess = true) :=
  ⟨by decide, claim_c8 (cs "   ") (by decide)⟩

/-- Counterexample to C8 as stated: the empty statement is *permitted* by
`validate_sql` under `FULL_ACCESS` (the claim says it is denied under every
mode). -/
theorem claim_c8_counterexample :
    normalizeSql [] = [] ∧ firstKeyword (normalizeSql []) = [] ∧
    validateSql [] SecurityMode.fullAccess = true := by decide

/-- Claim C4: a statement whose leading keyword is a write or dangerous
operation makes `execute_safe_query` raise (its forced `READONLY` validation
fails) without opening a connection or executing, under every configured
mode. -/
theorem claim_c4 (cfg : Config) (db : DbBehavior) (sql : Str)
    (params : Option (List Value))
    (h : firstKeyword (normalizeSql sql) ∈ writeOperations ++ dangerousOperations) :
    executeSafeQuery cfg db sql params =
      { outcome := Except.error (QueryError.safeQueryViolation (cs "系统查询必须是只读操作")),
        connOpened := false, executed := false } := by
  have h2 : validateSql sql SecurityMode.readonly = false :=
    validateReadonly_of_not_mem _ _ (writeDangerous_not_readonly _ h)
  simp [executeSafeQuery, h2]

/-- Witness for C4: `INSERT INTO t VALUES (1)` under a `FULL_ACCESS` config. -/
theorem claim_c4_witness :
    firstKeyword (normalizeSql (cs "INSERT INTO t VALUES (1)")) ∈
      writeOperations ++ dangerousOperations ∧
    executeSafeQuery cfgFull dbStub (cs "INSERT INTO t VALUES (1)") none =
      { outcome := Except.error (QueryError.safeQueryViolation (cs "系统查询必须是只读操作")),
        connOpened := false, executed := false } :=
  ⟨by decide, claim_c4 cfgFull dbStub (cs "INSERT INTO t VALUES (1)") none (by decide)⟩

/-- Claim C7: when the classifier denies a statement, `execute_query` fails
with a policy-violation error carrying `get_error_message`'s reason, without
opening a connection; under `READONLY`, `INSERT INTO t VALUES (1)` is denied
and the reason identifies it as a forbidden write operation naming `INSERT`. -/
theorem claim_c7 (cfg : Config) (db : DbBehavior) (sql : Str)
    (params : Option (List Value))
    (h : validateSql sql cfg.securityMode = false) :
    executeQuery cfg db sql params =
      { outcome := Except.error (QueryError.policyViolation
          (cs "SQL操作被安全策略禁止: " ++ getErrorMessage sql cfg.securityMode)),
        connOpened := false, executed := false } ∧
    validateSql (cs "INSERT INTO t VALUES (1)") SecurityMode.readonly = false ∧
    getErrorMessage (cs "INSERT INTO t VALUES (1)") SecurityMode.readonly =
      cs "只读模式下禁止写入操作: INSERT" := by
  refine ⟨?_, by decide, by decide⟩
  simp [executeQuery, h]

/-- Witness for C7: `INSERT INTO t VALUES (1)` under a `READONLY` config. -/
theorem claim_c7_witness :
    validateSql (cs "INSERT INTO t VALUES (1)") cfgReadonly.securityMode = false ∧
    (executeQuery cfgReadonly dbStub (cs "INSERT INTO t VALUES (1)") none =
      { outcome := Except.error (QueryError.policyViolation
          (cs "SQL操作被安全策略禁止: " ++
            getErrorMessage (cs "INSERT INTO t VALUES (1)") cfgReadonly.securityMode)),
        connOpened := false, executed := false } ∧
     validateSql (cs "INSERT INTO t VALUES (1)") SecurityMode.readonly = false ∧
     getErrorMessage (cs "INSERT INTO t VALUES (1)") SecurityMode.readonly =
       cs "只读模式下禁止写入操作: INSERT") :=
  ⟨by decide, claim_c7 cfgReadonly dbStub (cs "INSERT INTO t VALUES (1)") none (by decide)⟩

/-- Claim C10: `SELECT * FROM created_items` passes the forced `READONLY`
validation of `execute_safe_query` (its text contains `CREATE` only inside
the identifier, matching no phrase pattern), yet when the configured mode is
`LIMITED_WRITE` the delegated `execute_query` re-validates under that mode,
whose plain substring scan sees `CREATE` and raises. -/
theorem claim_c10 (cfg : Config) (db : DbBehavior) (params : Option (List Value))
    (h : cfg.securityMode = SecurityMode.limitedWrite) :
    validateSql (cs "SELECT * FROM created_items") SecurityMode.readonly = true ∧
    executeSafeQuery cfg db (cs "SELECT * FROM created_items") params =
      { outcome := Except.error (QueryError.policyViolation
          (cs "SQL操作被安全策略禁止: " ++
            getErrorMessage (cs "SELECT * FROM created_items") SecurityMode.limitedWrite)),
        connOpened := false, executed := false } := by
  have h1 : validateSql (cs "SELECT * FROM created_items") SecurityMode.readonly = true := by
    decide
  have h2 : validateSql (cs "SELECT * FROM created_items") SecurityMode.limitedWrite = false := by
    decide
  refine ⟨h1, ?_⟩
  simp [executeSafeQuery, executeQuery, h, h1, h2]

/-- Witness for C10 under a concrete `LIMITED_WRITE` config. -/
theorem claim_c10_witness :
    cfgLimited.securityMode = SecurityMode.limitedWrite ∧
    (validateSql (cs "SELECT * FROM created_items") SecurityMode.readonly = true ∧
     executeSafeQuery cfgLimited dbStub (cs "SELECT * FROM created_items") none =
       { outcome := Except.error (QueryError.policyViolation
           (cs "SQL操作被安全策略禁止: " ++
             getErrorMessage (cs "SELECT * FROM created_items") SecurityMode.limitedWrite)),
         connOpened := false, executed := false }) :=
  ⟨rfl, claim_c10 cfgLimited dbStub none rfl⟩

/-- Claim C6: for a retrieval statement that passes validation, if the
database returns more rows than the configured ceiling, `execute_query`
returns exactly the first `max_result_rows` rows in database order with no
error; otherwise all rows are returned unchanged. -/
theorem claim_c6 (cfg : Config) (db : DbBehavior) (sql : Str)
    (params : Option (List Value)) (rows : List Row) (rc : Int)
    (hv : validateSql sql cfg.securityMode = true)
    (hc : db.connectOk = true)
    (he : db.exec sql params = Except.ok (rows, rc))
    (hr : startsWithRetrieval (normalizeSql sql) = true) :
    (rows.length > cfg.maxResultRows →
      (executeQuery cfg db sql params).outcome =
        Except.ok (rows.take cfg.maxResultRows) ∧
      (rows.take cfg.maxResultRows).length = cfg.maxResultRows) ∧
    (rows.length ≤ cfg.maxResultRows →
      (executeQuery cfg db sql params).outcome = Except.ok rows) := by
  constructor
  · intro hgt
    constructor
    · simp [executeQuery, hv, hc, he, hr, hgt]
    · simp [List.length_take, Nat.min_eq_left (Nat.le_of_lt hgt)]
  · intro hle
    have hng : ¬ rows.length > cfg.maxResultRows := Nat.not_lt.mpr hle
    simp [executeQuery, hv, hc, he, hr, hng]

/-- Witness for C6: ceiling 2, database returns 3 rows; exactly 2 come back. -/
theorem claim_c6_witness :
    (executeQuery cfgCeiling dbThreeRows (cs "SELECT 1") none).outcome =
      Except.ok [([] : Row), []] ∧
    ([([] : Row), []]).length = cfgCeiling.maxResultRows :=
  (claim_c6 cfgCeiling dbThreeRows (cs "SELECT 1") none [[], [], []] 0
    (by decide) rfl rfl (by decide)).1 (by decide)

/-- Claim C5: with the schema policy in allow-list shape, the gate permits a
schema iff it is in the configured set under case-sensitive exact match;
`get_all_tables` on a denied schema fails with a schema-not-allowed error
carrying the policy display string; with allow-list `{"public"}`, `hr` is
denied and `public` is permitted. -/
theorem claim_c5 (cfg : Config) (db : DbBehavior) (schemas : List Str) (schema : Str)
    (hp : cfg.schemaPolicy = SchemaPolicy.allowList schemas) :
    (isSchemaAllowed cfg db schema = true ↔ schema ∈ schemas) ∧
    (schema ∉ schemas →
      getAllTables cfg db schema =
        { outcome := Except.error (QueryError.schemaNotAllowed
            (cs "不允许访问模式: " ++ schema ++ cs "，允许的模式: " ++ allowedSchemasDisplay cfg)),
          connOpened := false, executed := false }) ∧
    (schemas = [cs "public"] →
      isSchemaAllowed cfg db (cs "hr") = false ∧
      isSchemaAllowed cfg db (cs "public") = true) := by
  refine ⟨?_, ?_, ?_⟩
  · simp [isSchemaAllowed, hp]
  · intro hn
    have hfalse : isSchemaAllowed cfg db schema = false := by
      simp [isSchemaAllowed, hp, hn]
    simp [getAllTables, hfalse]
  · intro hs
    subst hs
    constructor
    · simp [isSchemaAllowed, hp]
      decide
    · simp [isSchemaAllowed, hp]

/-- Witness for C5 at the allow-list `{"public"}` and schema `hr`. -/
theorem claim_c5_witness :
    (isSchemaAllowed cfgReadonly dbStub (cs "hr") = true ↔ cs "hr" ∈ [cs "public"]) ∧
    (cs "hr" ∉ [cs "public"] →
      getAllTables cfgReadonly dbStub (cs "hr") =
        { outcome := Except.error (QueryError.schemaNotAllowed
            (cs "不允许访问模式: " ++ cs "hr" ++ cs "，允许的模式: " ++
              allowedSchemasDisplay cfgReadonly)),
          connOpened := false, executed := false }) ∧
    ([cs "public"] = [cs "public"] →
      isSchemaAllowed cfgReadonly dbStub (cs "hr") = false ∧
      isSchemaAllowed cfgReadonly dbStub (cs "public") = true) :=
  claim_c5 cfgReadonly dbStub [cs "public"] (cs "hr") rfl

theorem litAt_decomp : ∀ n s : Str, litAt n s = true → ∃ b, s = n ++ b := by
  intro n
  induction n with
  | nil => intro s _; exact ⟨s, rfl⟩
  | cons a as ih =>
    intro s h
    cases s with
    | nil => simp [litAt] at h
    | cons c s' =>
      simp only [litAt, Bool.and_eq_true, beq_iff_eq] at h
      obtain ⟨h1, h2⟩ := h
      subst h1
      obtain ⟨b, hb⟩ := ih s' h2
      exact ⟨b, by rw [hb]; rfl⟩

theorem occursIn_decomp : ∀ n u : Str, occursIn n u = true → ∃ a b, u = a ++ n ++ b := by
  intro n u
  induction u with
  | nil =>
    intro h
    obtain ⟨b, hb⟩ := litAt_decomp n [] h
    exact ⟨[], b, by simpa using hb⟩
  | cons c rest ih =>
    intro h
    simp only [occursIn, Bool.or_eq_true] at h
    cases h with
    | inl h1 =>
      obtain ⟨b, hb⟩ := litAt_decomp _ _ h1
      exact ⟨[], b, by simpa using hb⟩
    | inr h2 =>
      obtain ⟨a, b, hab⟩ := ih h2
      exact ⟨c :: a, b, by simp [hab]⟩

theorem matchAt_dropTable (b : Str) :
    matchAt patDropTable (some ' ')
      ('D' :: 'R' :: 'O' :: 'P' :: ' ' :: 'T' :: 'A' :: 'B' :: 'L' :: 'E' :: ' ' :: 'X' :: ';' :: b)
      = true := rfl

theorem searchFrom_spread (p : List PatTok) (v : Str)
    (hv : ∀ q, searchFrom p q v = true) :
    ∀ (a : Str) (prev : Option Char), searchFrom p prev (a ++ v) = true := by
  intro a
  induction a with
  | nil => intro prev; exact hv prev
  | cons c a' ih => intro prev; simp [searchFrom, ih (some c)]

theorem searchFrom_dropNeedle (b : Str) (q : Option Char) :
    searchFrom patDropTable q (cs "; DROP TABLE X;" ++ b) = true := by
  show searchFrom patDropTable q
    (';' :: ' ' :: 'D' :: 'R' :: 'O' :: 'P' :: ' ' :: 'T' :: 'A' :: 'B' :: 'L' :: 'E' :: ' ' :: 'X' :: ';' :: b) = true
  simp [searchFrom, matchAt_dropTable b]

theorem reSearch_dropNeedle (u : Str)
    (h : occursIn (cs "; DROP TABLE X;") u = true) :
    reSearch patDropTable u = true := by
  obtain ⟨a, b, hab⟩ := occursIn_decomp _ _ h
  rw [hab]
  unfold reSearch
  rw [List.append_assoc]
  exact searchFrom_spread patDropTable _ (fun q => searchFrom_dropNeedle b q) a none

theorem validateReadonly_select (u : Str) :
    validateReadonly (cs "SELECT") u
      = !(dangerousSelectPatterns.any (fun p => reSearch p u)) := by
  have hm : cs "SELECT" ∈ readonlyOperations := by decide
  simp [validateReadonly, hm]

theorem validateReadonly_other (kw u : Str)
    (h1 : kw ∈ readonlyOperations) (h2 : kw ≠ cs "SELECT") :
    validateReadonly kw u
      = !((writeOperations ++ dangerousOperations).any (fun w => occursIn w u)) := by
  simp [validateReadonly, h1, h2]

/-- Claim C2: under `READONLY`, a non-read-only leading keyword is denied; a
`SELECT` statement is denied iff one of the seven phrase patterns matches the
normalized text; in particular any `SELECT` statement whose normalized text
contains `; DROP TABLE X;` is denied; any other read-only leading keyword is
denied iff some write or dangerous keyword occurs anywhere as a substring. -/
theorem claim_c2 (sql : Str) :
    (firstKeyword (normalizeSql sql) ∉ readonlyOperations →
      validateSql sql SecurityMode.readonly = false) ∧
    (firstKeyword (normalizeSql sql) = cs "SELECT" →
      (validateSql sql SecurityMode.readonly = false ↔
        dangerousSelectPatterns.any (fun p => reSearch p (normalizeSql sql)) = true)) ∧
    (firstKeyword (normalizeSql sql) = cs "SELECT" →
      occursIn (cs "; DROP TABLE X;") (normalizeSql sql) = true →
      validateSql sql SecurityMode.readonly = false) ∧
    (firstKeyword (normalizeSql sql) ∈ readonlyOperations →
      firstKeyword (normalizeSql sql) ≠ cs "SELECT" →
      (validateSql sql SecurityMode.readonly = false ↔
        (writeOperations ++ dangerousOperations).any
          (fun w => occursIn w (normalizeSql sql)) = true)) := by
  refine ⟨?_, ?_, ?_, ?_⟩
  · intro h; exact validateReadonly_of_not_mem _ _ h
  · intro h
    show validateReadonly (firstKeyword (normalizeSql sql)) (normalizeSql sql) = false ↔ _
    rw [h, validateReadonly_select]
    simp
  · intro h ho
    show validateReadonly (firstKeyword (normalizeSql sql)) (normalizeSql sql) = false
    rw [h, validateReadonly_select]
    have hany : dangerousSelectPatterns.any (fun p => reSearch p (normalizeSql sql)) = true :=
      List.any_eq_true.mpr ⟨patDropTable, List.mem_cons_self _ _, reSearch_dropNeedle _ ho⟩
    rw [hany]
    rfl
  · intro h1 h2
    show validateReadonly (firstKeyword (normalizeSql sql)) (normalizeSql sql) = false ↔ _
    rw [validateReadonly_other _ _ h1 h2]
    cases hb : (writeOperations ++ dangerousOperations).any
        (fun w => occursIn w (normalizeSql sql)) <;> simp [hb]

/-- Witness for C2 at the concrete statement `SELECT 1; DROP TABLE x;`. -/
theorem claim_c2_witness :
    firstKeyword (normalizeSql (cs "SELECT 1; DROP TABLE x;")) = cs "SELECT" ∧
    occursIn (cs "; DROP TABLE X;") (normalizeSql (cs "SELECT 1; DROP TABLE x;")) = true ∧
    validateSql (cs "SELECT 1; DROP TABLE x;") SecurityMode.readonly = false :=
  ⟨by decide, by decide,
    (claim_c2 (cs "SELECT 1; DROP TABLE x;")).2.2.1 (by decide) (by decide)⟩

theorem dropWhile_self (p : Char → Bool) :
    ∀ l : Str, (l.dropWhile p).dropWhile p = l.dropWhile p := by
  intro l
  induction l with
  | nil => rfl
  | cons c l ih => by_cases h : p c <;> simp [List.dropWhile_cons, h, ih]

theorem dropWhile_exists_decomp (p : Char → Bool) :
    ∀ l : Str, ∃ w, l = w ++ l.dropWhile p := by
  intro l
  induction l with
  | nil => exact ⟨[], rfl⟩
  | cons c l ih =>
    by_cases h : p c
    · obtain ⟨w, hw⟩ := ih
      exact ⟨c :: w, by simp only [List.dropWhile_cons, h, if_true, List.cons_append]; rw [← hw]⟩
    · exact ⟨[], by simp [List.dropWhile_cons, h]⟩

theorem dropWhile_append_self (p : Char → Bool) (r z : Str)
    (h : List.dropWhile p (r ++ z) = r ++ z) : List.dropWhile p r = r := by
  cases r with
  | nil => rfl
  | cons c r' =>
    by_cases hc : p c
    · exfalso
      rw [List.cons_append, List.dropWhile_cons_of_pos hc] at h
      have h1 := (List.dropWhile_sublist (l := r' ++ z) p).length_le
      rw [h] at h1
      simp at h1
    · exact List.dropWhile_cons_of_neg hc

theorem dropSpaces_stripStr (s : Str) : dropSpaces (stripStr s) = stripStr s := by
  unfold stripStr dropSpaces
  obtain ⟨w, hw⟩ := dropWhile_exists_decomp isSpaceChar (s.dropWhile isSpaceChar).reverse
  have ht : s.dropWhile isSpaceChar
      = ((s.dropWhile isSpaceChar).reverse.dropWhile isSpaceChar).reverse ++ w.reverse := by
    have h2 := congrArg List.reverse hw
    simpa using h2
  exact dropWhile_append_self isSpaceChar _ w.reverse
    (by rw [← ht]; exact dropWhile_self isSpaceChar s)

theorem litAt_takeWhile (p : Char → Bool) :
    ∀ l : Str, litAt (l.takeWhile p) l = true := by
  intro l
  induction l with
  | nil => rfl
  | cons c l ih =>
    by_cases h : p c
    · simp [List.takeWhile_cons, h, litAt, ih]
    · simp [List.takeWhile_cons, h, litAt]

theorem firstKeyword_litAt (sql : Str) :
    litAt (firstKeyword (normalizeSql sql)) (normalizeSql sql) = true := by
  unfold firstKeyword takeToken normalizeSql
  rw [dropSpaces_stripStr (upperStr sql)]
  exact litAt_takeWhile _ _

/-- Claim C9 (amended): for a permitted statement, `execute_query` branches
on whether the normalized text *starts with* one of the five strings
`SELECT, WITH, SHOW, DESCRIBE, EXPLAIN` (a prefix test, not a whole-token
test): if so the result is the possibly-truncated row sequence, otherwise a
single status record with the affected-row count; having the leading keyword
in the retrieval set is sufficient (but not necessary) for the row branch. -/
theorem claim_c9 (cfg : Config) (db : DbBehavior) (sql : Str)
    (params : Option (List Value)) (rows : List Row) (rc : Int)
    (hv : validateSql sql cfg.securityMode = true)
    (hc : db.connectOk = true)
    (he : db.exec sql params = Except.ok (rows, rc)) :
    (startsWithRetrieval (normalizeSql sql) = true →
      (executeQuery cfg db sql params).outcome = Except.ok
        (if rows.length > cfg.maxResultRows then rows.take cfg.maxResultRows else rows)) ∧
    (startsWithRetrieval (normalizeSql sql) = false →
      (executeQuery cfg db sql params).outcome = Except.ok [statusRow rc]) ∧
    (firstKeyword (normalizeSql sql) ∈ retrievalStarts →
      startsWithRetrieval (normalizeSql sql) = true) := by
  refine ⟨?_, ?_, ?_⟩
  · intro hr; simp [executeQuery, hv, hc, he, hr]
  · intro hr; simp [executeQuery, hv, hc, he, hr]
  · intro hm
    unfold startsWithRetrieval
    exact List.any_eq_true.mpr ⟨_, hm, firstKeyword_litAt sql⟩

/-- Witness for C9: a `SELECT` and an `ANALYZE` statement under `READONLY`. -/
theorem claim_c9_witness :
    (executeQuery cfgReadonly dbOneRow (cs "ANALYZE t") none).outcome =
      Except.ok [statusRow 7] :=
  (claim_c9 cfgReadonly dbOneRow (cs "ANALYZE t") none [[]] 7
    (by decide) rfl rfl).2.1 (by decide)

/-- Counterexample to C9 as stated: under `FULL_ACCESS`, the permitted
statement `WITHX 1` has leading keyword `WITHX`, outside the retrieval set,
yet `execute_query` takes the row branch (the code tests a text *prefix*,
and `WITHX 1` starts with `WITH`), returning the fetched rows instead of the
status record the claim requires. -/
theorem claim_c9_counterexample :
    validateSql (cs "WITHX 1") SecurityMode.fullAccess = true ∧
    firstKeyword (normalizeSql (cs "WITHX 1")) ∉ retrievalStarts ∧
    (executeQuery cfgFull dbOneRow (cs "WITHX 1") none).outcome =
      Except.ok [([] : Row)] ∧
    [([] : Row)] ≠ [statusRow 7] :=
  ⟨by decide, by decide, rfl, by decide⟩

